import Mathlib

/-!
Verification of the catalog scanning engine (`src/python/lsst/imgserv/crawler.py`)
against its natural-language specification.

The embedding below translates the crawler module into Lean. External
collaborators (the datacat client, the file system, the `cksum` subprocess,
the clock) are modelled by an explicit environment `Env` whose fields give
the outcome of each external call; the crawler code itself is translated
statement by statement. Python exceptions are modelled by explicit
`Except` / outcome values, and the observable actions of one run (the search
call, `print` output, patch calls) are collected in an event trace.
-/

/-- Module-level constant `WATCH_FOLDER = '/LSST'` (crawler.py line 27). -/
def WATCH_FOLDER : String := "/LSST"

/-- Module-level constant `WATCH_SITE = 'NCSA'` (crawler.py line 28). -/
def WATCH_SITE : String := "NCSA"

/-- Class constant `Crawler.RERUN_SECONDS = 5` (crawler.py line 32). -/
def RERUN_SECONDS : Nat := 5

/-- A single-quote character, built numerically so the query string below can
contain it. -/
def squote : String := String.mk [Char.ofNat 39]

/-- The literal query string passed to the search call (crawler.py line 69):
scanStatus = (squote) UNSCANNED (squote). -/
def searchQuery : String := "scanStatus = " ++ squote ++ "UNSCANNED" ++ squote

/-- A catalog `Location` record: `location.site` and `location.resource` as
accessed on lines 88 and 91 of crawler.py. -/
structure Location where
  site : String
  resource : String
deriving DecidableEq

/-- A catalog dataset as used by `Crawler.run`: `dataset.path` (line 92),
`dataset.versionId` (line 111) and `dataset.locations` (line 85). -/
structure Dataset where
  path : String
  versionId : Nat
  locations : List Location
deriving DecidableEq

/-- The argument tuple of one `client.search(...)` call (crawler.py lines 68-69). -/
structure SearchCall where
  folder : String
  version : String
  site : String
  query : String
  maxNum : Nat
deriving DecidableEq

/-- The concrete search call issued by `Crawler.run` (crawler.py lines 68-69):
`self.client.search(WATCH_FOLDER, version="current", site="all",
query="scanStatus = 'UNSCANNED'", max_num=1000)`. -/
def theSearchCall : SearchCall :=
  { folder := WATCH_FOLDER
  , version := "current"
  , site := "all"
  , query := searchQuery
  , maxNum := 1000 }

/-- The location-selection loop of `Crawler.run` (crawler.py lines 86-90):
`check_location = None; for location in locations: if location.site ==
WATCH_SITE: check_location = location; break`. Returns the value of
`check_location` after the loop: the first matching `Location`, or `none`. -/
def resolveLocation : List Location → String → Option Location
  | [], _ => none
  | l :: rest, site => if l.site = site then some l else resolveLocation rest site

/-- Python `s.split(" ")` on a character list: splits at every single space
character, keeping empty fields (so the empty string splits to one empty
field). Models line 52 of crawler.py. -/
def pySplitSpace : List Char → List (List Char)
  | [] => [[]]
  | c :: rest =>
    match pySplitSpace rest with
    | [] => [[]]
    | t :: ts => if c = ' ' then [] :: t :: ts else (c :: t) :: ts

/-- `Crawler.get_cksum` (crawler.py lines 46-54). The subprocess outcome is the
pair (exit code, stdout contents). The exit code is read by `wait()` and then
ignored (`if ec != 0: pass`); the returned checksum is element 0 of
`stdout.read().split(" ")`. -/
def get_cksum (proc : Int × List Char) : List Char :=
  (pySplitSpace proc.2).headD []

/-- Metadata as attached to the patch payload: a Python dict, modelled as an
association list. -/
abbrev Metadata := List (String × String)

/-- `Crawler.get_metadata` (crawler.py lines 56-57): `return None`. -/
def get_metadata (_path : String) : Option Metadata := none

/-- Python truthiness of the value returned by `get_metadata`, as tested by
`if md:` on line 106: `None` and the empty dict are falsy. -/
def mdTruthy : Option Metadata → Bool
  | none => false
  | some l => !l.isEmpty

/-- A UTC wall-clock instant, the value of `datetime.utcnow()`. -/
structure UTCTime where
  year : Nat
  month : Nat
  day : Nat
  hour : Nat
  minute : Nat
  second : Nat
deriving DecidableEq

/-- Zero-padding to two digits, as strftime does for %m %d %H %M %S. -/
def pad2 (n : Nat) : String := if n < 10 then "0" ++ toString n else toString n

/-- The strftime format of line 102: `'%Y-%m-%dT%H:%M:%SZ'`. -/
def isoZ (t : UTCTime) : String :=
  toString t.year ++ "-" ++ pad2 t.month ++ "-" ++ pad2 t.day ++ "T"
    ++ pad2 t.hour ++ ":" ++ pad2 t.minute ++ ":" ++ pad2 t.second ++ "Z"

/-- The `scan_result` dict built on lines 98-107 of crawler.py. The
`versionMetadata` key is present exactly when `if md:` held. -/
structure ScanResult where
  size : Nat
  checksum : String
  locationScanned : String
  scanStatus : String
  versionMetadata : Option Metadata
deriving DecidableEq

/-- Construction of the `scan_result` dict (crawler.py lines 98-107) from the
stat size, the checksum, the current time and the metadata value. -/
def mkScanResult (size : Nat) (cksum : List Char) (now : UTCTime)
    (md : Option Metadata) : ScanResult :=
  { size := size
  , checksum := String.mk cksum
  , locationScanned := isoZ now
  , scanStatus := "OK"
  , versionMetadata := if mdTruthy md then md else none }

/-- A `DcException` raised by the datacat client. Its attributes mirror the
`hasattr` tests on lines 71-79: optional `message` / `type` / `cause`
attributes and a `content` fallback. -/
structure DcError where
  message : Option String
  etype : Option String
  cause : Option String
  content : String
deriving DecidableEq

/-- Observable actions of the crawler: the catalog search call, `print`
output, and catalog patch calls. -/
inductive Event where
  | searchCalled (call : SearchCall)
  | printed (s : String)
  | patchCalled (datasetPath : String) (payload : ScanResult)
      (versionId : Nat) (site : String)
deriving DecidableEq

/-- The error report printed in the `except DcException` block of the search
call (crawler.py lines 70-79). -/
def reportSearchError (e : DcError) : List Event :=
  match e.message with
  | some m =>
    [Event.printed ("Error occurred:\nMessage: " ++ m)]
      ++ (match e.etype with
          | some t => [Event.printed ("Type: " ++ t)]
          | none => [])
      ++ (match e.cause with
          | some c => [Event.printed ("Cause: " ++ c)]
          | none => [])
  | none => [Event.printed e.content]

/-- A Python exception escaping `Crawler.run` uncaught:
`attributeError` models `check_location.resource` on line 91 when
`check_location` is `None`, and `osError` models `os.stat` (line 93) failing
on the given path. -/
inductive PyExc where
  | attributeError
  | osError (path : String)
deriving DecidableEq

/-- How one invocation of `Crawler.run` terminates: normally, by `sys.exit`
(line 80), or by an uncaught Python exception. -/
inductive RunResult where
  | done
  | sysExit (code : Nat)
  | uncaught (e : PyExc)
deriving DecidableEq

/-- The environment of one run: outcomes of every external call. `stat` gives
`os.stat(path).st_size` or an OS error; `cksumProc` gives the exit code and
stdout of the `cksum` subprocess; `patchResult` gives the outcome of
`client.patch_dataset` keyed by dataset path; `runDuration` is the wall-clock
time (seconds) the body of `run` takes. -/
structure Env where
  searchResult : Except DcError (List Dataset)
  stat : String → Except String Nat
  cksumProc : String → Int × List Char
  patchResult : String → Except DcError Unit
  now : UTCTime
  runDuration : Nat

/-- The body of the `for dataset in results:` loop (crawler.py lines 84-114)
for one dataset: the emitted events, and the uncaught exception if one is
raised. Mirrors the statement order: location loop, `check_location.resource`,
`os.stat`, `get_cksum`, `scan_result` construction, `get_metadata`, guarded
patch call with its own `except DcException` handler. -/
def processOne (env : Env) (d : Dataset) : List Event × Option PyExc :=
  match resolveLocation d.locations WATCH_SITE with
  | none => ([], some PyExc.attributeError)
  | some loc =>
    match env.stat loc.resource with
    | Except.error _ => ([], some (PyExc.osError loc.resource))
    | Except.ok size =>
      let cksum := get_cksum (env.cksumProc loc.resource)
      let payload := mkScanResult size cksum env.now (get_metadata loc.resource)
      let ev := Event.patchCalled d.path payload d.versionId WATCH_SITE
      match env.patchResult d.path with
      | Except.ok _ => ([ev], none)
      | Except.error _ =>
        ([ev, Event.printed "Encountered error while updating dataset"], none)

/-- The `for dataset in results:` loop over the whole batch: datasets are
processed in order; an uncaught exception from one dataset aborts the loop
(no handler wraps the loop body apart from the patch call's own). -/
def processList (env : Env) : List Dataset → List Event × Option PyExc
  | [] => ([], none)
  | d :: rest =>
    match processOne env d with
    | (evs, some e) => (evs, some e)
    | (evs, none) =>
      match processList env rest with
      | (evs2, r) => (evs ++ evs2, r)

/-- `Crawler.run` (crawler.py lines 60-114). The credential file read and
`dbOpen` on lines 61-64 are external setup whose results are never used by the
rest of the method; they are not modelled. The search call is issued; on
`DcException` the error is reported and `sys.exit(1)` is called (line 80);
otherwise the unpacked results are processed in order. -/
def Crawler.run (env : Env) : List Event × RunResult :=
  match env.searchResult with
  | Except.error e =>
    (Event.searchCalled theSearchCall :: reportSearchError e, RunResult.sysExit 1)
  | Except.ok results =>
    match processList env results with
    | (evs, some e) => (Event.searchCalled theSearchCall :: evs, RunResult.uncaught e)
    | (evs, none) => (Event.searchCalled theSearchCall :: evs, RunResult.done)

/-- `Crawler._run` (crawler.py lines 42-44), invoked at absolute time `t`:
it calls `self.run()`, and only if that returns normally reaches
`self.sched.enter(RERUN_SECONDS, 1, self._run, ())`, which schedules the next
`_run` at current time plus `RERUN_SECONDS` - current time being read after
`run` has returned, i.e. `t + env.runDuration`. Returns the run trace, the
scheduler queue contribution (absolute times), and the outcome. -/
def Crawler.runStep (env : Env) (t : Nat) : List Event × List Nat × RunResult :=
  match Crawler.run env with
  | (evs, RunResult.done) => (evs, [t + env.runDuration + RERUN_SECONDS], RunResult.done)
  | (evs, r) => (evs, [], r)

/-- `Crawler.__init__` (crawler.py lines 34-37) entered at absolute time `t0`:
after constructing the client and the scheduler it immediately calls
`self._run()`. The construction itself therefore performs one full run and
leaves the queue `_run` produced. -/
def Crawler.init (env : Env) (t0 : Nat) : List Event × List Nat × RunResult :=
  Crawler.runStep env t0

/-- `Crawler.start` / `sched.run` (crawler.py lines 39-40): services the
already-enqueued timer events. `envs t` is the environment of the run fired at
absolute time `t`; `fuel` bounds the number of serviced events so the model
terminates. An empty queue yields no events (sched.run returns at once). -/
def Crawler.start (envs : Nat → Env) : Nat → List Nat → List Event
  | 0, _ => []
  | _, [] => []
  | fuel + 1, t :: _ =>
    match Crawler.runStep (envs t) t with
    | (evs, q, _) => evs ++ Crawler.start envs fuel q

/-- The absolute time at which the next `_run` is scheduled after a `_run`
fired at time `t`, when one is scheduled at all. -/
def nextRunTime (env : Env) (t : Nat) : Option Nat :=
  match Crawler.runStep env t with
  | (_, [u], _) => some u
  | _ => none

/-! Concrete fixtures, following the scenario of the specification: dataset
`/d/1`, versionId 7, one location at site NCSA with resource
`/data/f1.fits`, file size 2048, checksum `abc123`. -/

/-- A fixed wall-clock instant for concrete runs. -/
def tNow : UTCTime := ⟨2015, 6, 1, 12, 0, 0⟩

/-- The NCSA location of the scenario dataset. -/
def locF1 : Location := ⟨"NCSA", "/data/f1.fits"⟩

/-- The scenario dataset. -/
def ds1 : Dataset := ⟨"/d/1", 7, [locF1]⟩

/-- The scenario dataset with its only location at a different site. -/
def dsOther : Dataset := ⟨"/d/1", 7, [⟨"OTHER", "/data/f1.fits"⟩]⟩

/-- Three-dataset batch used for the isolation scenarios. -/
def dsA : Dataset := ⟨"/d/a", 1, [⟨"NCSA", "/data/a.fits"⟩]⟩

/-- Second dataset of the three-dataset batch. -/
def dsB : Dataset := ⟨"/d/b", 2, [⟨"NCSA", "/data/b.fits"⟩]⟩

/-- Third dataset of the three-dataset batch. -/
def dsC : Dataset := ⟨"/d/c", 3, [⟨"NCSA", "/data/c.fits"⟩]⟩

/-- The stdout the `cksum` subprocess produces for the scenario file. -/
def cksumOutF1 : List Char := "abc123 2048 /data/f1.fits".data

/-- An environment in which every external call succeeds. -/
def envOk : Env :=
  { searchResult := Except.ok [ds1]
  , stat := fun _ => Except.ok 2048
  , cksumProc := fun _ => (0, cksumOutF1)
  , patchResult := fun _ => Except.ok ()
  , now := tNow
  , runDuration := 0 }

/-- A transport failure of the catalog search. -/
def dcSearchErr : DcError :=
  { message := some "Connection refused"
  , etype := some "TransportError"
  , cause := none
  , content := "" }

/-- Environment whose search call raises `DcException`. -/
def envSearchFail : Env := { envOk with searchResult := Except.error dcSearchErr }

/-- Environment fetching the three-dataset batch, where `os.stat` fails on the
second dataset's file. -/
def envStatFailB : Env :=
  { envOk with
      searchResult := Except.ok [dsA, dsB, dsC]
    , stat := fun p =>
        if p = "/data/b.fits" then Except.error "No such file or directory"
        else Except.ok 2048 }

/-- Environment fetching the three-dataset batch, where the patch call for the
second dataset fails. -/
def envPatchFailB : Env :=
  { envOk with
      searchResult := Except.ok [dsA, dsB, dsC]
    , patchResult := fun p =>
        if p = "/d/b" then Except.error ⟨none, none, none, "patch rejected"⟩
        else Except.ok () }

/-- Environment whose only dataset has no location at the watch site. -/
def envNoSite : Env := { envOk with searchResult := Except.ok [dsOther] }

/-- Environment whose run body takes 7 seconds of wall-clock time. -/
def envSlowRun : Env := { envOk with searchResult := Except.ok [], runDuration := 7 }

/-- Environment where the `cksum` subprocess exits with status 1 and empty
stdout (unreadable file contents), while `os.stat` still succeeds. -/
def envCksumFail : Env := { envOk with cksumProc := fun _ => (1, []) }

/-- Predicate picking the search-call events out of a trace. -/
def isSearchEvent : Event → Bool
  | Event.searchCalled _ => true
  | _ => false

/-! Helper lemmas shared by the claim theorems. -/

/-- Python `split` never yields an empty field list. -/
theorem pySplitSpace_ne_nil (s : List Char) : pySplitSpace s ≠ [] := by
  cases s with
  | nil => simp [pySplitSpace]
  | cons c rest =>
    simp only [pySplitSpace]
    cases h : pySplitSpace rest with
    | nil => simp
    | cons t ts =>
      by_cases hc : c = ' ' <;> simp [hc]

/-- Splitting a string that starts with a space-free token followed by a space
peels off exactly that token. -/
theorem pySplitSpace_token (tok rest : List Char) (h : ' ' ∉ tok) :
    pySplitSpace (tok ++ ' ' :: rest) = tok :: pySplitSpace rest := by
  induction tok with
  | nil =>
    simp only [List.nil_append, pySplitSpace]
    cases hr : pySplitSpace rest with
    | nil => exact absurd hr (pySplitSpace_ne_nil rest)
    | cons t ts => simp
  | cons c tok ih =>
    have hc : ¬ c = ' ' := fun hc => h (hc ▸ List.mem_cons_self c tok)
    have h' : ' ' ∉ tok := fun hm => h (List.mem_cons_of_mem _ hm)
    simp only [List.cons_append, pySplitSpace, List.append_eq, ih h', if_neg hc]

/-- Characterisation of the location-selection loop: it returns `some l`
exactly when `l` matches the requested site and everything before `l` in the
sequence does not. -/
theorem resolveLocation_eq_some_iff (ls : List Location) (site : String) (l : Location) :
    resolveLocation ls site = some l ↔
      l.site = site ∧ ∃ p q, ls = p ++ l :: q ∧ ∀ x ∈ p, x.site ≠ site := by
  induction ls with
  | nil => simp [resolveLocation]
  | cons a rest ih =>
    simp only [resolveLocation]
    by_cases ha : a.site = site
    · rw [if_pos ha]
      constructor
      · intro h
        injection h with h
        subst h
        exact ⟨ha, [], rest, rfl, by simp⟩
      · rintro ⟨hl, p, q, hsplit, hp⟩
        cases p with
        | nil =>
          simp only [List.nil_append, List.cons.injEq] at hsplit
          rw [hsplit.1]
        | cons x p =>
          simp only [List.cons_append, List.cons.injEq] at hsplit
          exact absurd (hsplit.1 ▸ ha) (hp x (List.mem_cons_self x p))
    · rw [if_neg ha, ih]
      constructor
      · rintro ⟨hl, p, q, hsplit, hp⟩
        refine ⟨hl, a :: p, q, by rw [hsplit]; rfl, ?_⟩
        intro x hx
        rcases List.mem_cons.mp hx with hx | hx
        · rw [hx]; exact ha
        · exact hp x hx
      · rintro ⟨hl, p, q, hsplit, hp⟩
        cases p with
        | nil =>
          simp only [List.nil_append, List.cons.injEq] at hsplit
          exact absurd (hsplit.1 ▸ hl) ha
        | cons x p =>
          simp only [List.cons_append, List.cons.injEq] at hsplit
          exact ⟨hl, p, q, hsplit.2, fun y hy => hp y (List.mem_cons_of_mem x hy)⟩

/-- When no location matches, the loop leaves `check_location` at `None`. -/
theorem resolveLocation_eq_none (ls : List Location) (site : String)
    (h : ∀ x ∈ ls, x.site ≠ site) : resolveLocation ls site = none := by
  cases hr : resolveLocation ls site with
  | none => rfl
  | some l =>
    rcases (resolveLocation_eq_some_iff ls site l).mp hr with ⟨hl, p, q, hsplit, -⟩
    exact absurd hl (h l (hsplit ▸ List.mem_append_right p (List.mem_cons_self l q)))

/-- The search-error report consists of `print` output only: it never contains
a patch call. -/
theorem patch_not_mem_reportSearchError (e : DcError) (p : String) (pay : ScanResult)
    (v : Nat) (s : String) : Event.patchCalled p pay v s ∉ reportSearchError e := by
  rcases e with ⟨msg, ty, ca, co⟩
  cases msg <;> cases ty <;> cases ca <;> simp [reportSearchError]

/-- The search-error report always prints at least one line. -/
theorem reportSearchError_ne_nil (e : DcError) : reportSearchError e ≠ [] := by
  rcases e with ⟨msg, ty, ca, co⟩
  cases msg <;> cases ty <;> cases ca <;> simp [reportSearchError]

/-- C1: the claim asserts that a failing catalog search leaves the scheduler
running and the next cycle scheduled. In the code the `except DcException`
handler of the search call ends in `sys.exit(1)`: the process terminates and
nothing is rescheduled, as this concrete failing search shows. -/
theorem C1_counterexample :
    (Crawler.run envSearchFail).2 = RunResult.sysExit 1 ∧
    nextRunTime envSearchFail 0 = none := by decide

/-- C1 (amended): for every run whose catalog search raises `DcException`, the
cycle is abandoned with no partial processing (the trace holds the search and
the error report only, never a patch call) and the failure is reported by at
least one printed line, but the process then exits with status 1: no next
cycle is ever scheduled. -/
theorem C1_search_failure_exits (env : Env) (e : DcError) (t : Nat)
    (h : env.searchResult = Except.error e) :
    Crawler.run env =
      (Event.searchCalled theSearchCall :: reportSearchError e, RunResult.sysExit 1) ∧
    reportSearchError e ≠ [] ∧
    (∀ p pay v s, Event.patchCalled p pay v s ∉ (Crawler.run env).1) ∧
    nextRunTime env t = none := by
  have hrun : Crawler.run env =
      (Event.searchCalled theSearchCall :: reportSearchError e, RunResult.sysExit 1) := by
    simp [Crawler.run, h]
  refine ⟨hrun, reportSearchError_ne_nil e, ?_, ?_⟩
  · intro p pay v s hmem
    rw [hrun] at hmem
    rcases List.mem_cons.mp hmem with h1 | h1
    · simp at h1
    · exact patch_not_mem_reportSearchError e p pay v s h1
  · simp [nextRunTime, Crawler.runStep, hrun]

/-- Witness for C1 at the concrete failing search environment. -/
theorem C1_witness :
    envSearchFail.searchResult = Except.error dcSearchErr ∧
    (Crawler.run envSearchFail =
      (Event.searchCalled theSearchCall :: reportSearchError dcSearchErr, RunResult.sysExit 1) ∧
     reportSearchError dcSearchErr ≠ [] ∧
     (∀ p pay v s, Event.patchCalled p pay v s ∉ (Crawler.run envSearchFail).1) ∧
     nextRunTime envSearchFail 3 = none) :=
  ⟨rfl, C1_search_failure_exits envSearchFail dcSearchErr 3 rfl⟩

/-- C2: the claim asserts that any per-dataset failure is caught and the rest
of the batch still processed. In the batch `[dsA, dsB, dsC]` where only dsB's
`os.stat` fails, dsA is patched but the `OSError` escapes uncaught and dsC is
never scanned or patched: one bad dataset does block the rest. -/
theorem C2_counterexample :
    Crawler.run envStatFailB =
      ([Event.searchCalled theSearchCall,
        Event.patchCalled "/d/a"
          { size := 2048, checksum := "abc123",
            locationScanned := "2015-06-01T12:00:00Z", scanStatus := "OK",
            versionMetadata := none } 1 "NCSA"],
       RunResult.uncaught (PyExc.osError "/data/b.fits")) := by decide

/-- C2 (amended): only patch-call failures are dataset-scoped. For a dataset
whose location resolves and whose stat succeeds, no exception escapes its
processing whatever the patch outcome; a failed patch is reported by a printed
line; and the loop continues with the remaining datasets, whose events all
still occur. (A location-missing or stat failure instead raises an uncaught
exception that aborts the whole batch, as the counterexample shows.) -/
theorem C2_patch_failure_isolated (env : Env) (d : Dataset) (rest : List Dataset)
    (loc : Location) (n : Nat)
    (hloc : resolveLocation d.locations WATCH_SITE = some loc)
    (hstat : env.stat loc.resource = Except.ok n) :
    (processOne env d).2 = none ∧
    (∀ e, env.patchResult d.path = Except.error e →
      Event.printed "Encountered error while updating dataset" ∈ (processOne env d).1) ∧
    processList env (d :: rest) =
      ((processOne env d).1 ++ (processList env rest).1, (processList env rest).2) := by
  have h2 : (processOne env d).2 = none := by
    simp only [processOne, hloc, hstat]
    cases env.patchResult d.path <;> simp
  refine ⟨h2, ?_, ?_⟩
  · intro e he
    simp [processOne, hloc, hstat, he]
  · cases hp : processOne env d with
    | mk evs exc =>
      cases exc with
      | some e => rw [hp] at h2; simp at h2
      | none =>
        cases hq : processList env rest with
        | mk evs2 r => simp [processList, hp, hq]

/-- Witness for C2 at the concrete batch whose second patch call fails. -/
theorem C2_witness :
    resolveLocation dsB.locations WATCH_SITE = some ⟨"NCSA", "/data/b.fits"⟩ ∧
    envPatchFailB.stat "/data/b.fits" = Except.ok 2048 ∧
    ((processOne envPatchFailB dsB).2 = none ∧
     (∀ e, envPatchFailB.patchResult dsB.path = Except.error e →
       Event.printed "Encountered error while updating dataset" ∈ (processOne envPatchFailB dsB).1) ∧
     processList envPatchFailB (dsB :: [dsC]) =
       ((processOne envPatchFailB dsB).1 ++ (processList envPatchFailB [dsC]).1,
        (processList envPatchFailB [dsC]).2)) :=
  ⟨by decide, rfl,
   C2_patch_failure_isolated envPatchFailB dsB [dsC] ⟨"NCSA", "/data/b.fits"⟩ 2048
     (by decide) rfl⟩

/-- C3: the claim asserts that a dataset with no location at the watch site is
reported as a per-item failure. In the code `check_location` is indeed left at
`None` by the loop (no exception there) and no patch call is issued, but the
dataset is not reported: `check_location.resource` raises an uncaught
`AttributeError` that aborts the whole run, as this concrete run shows - its
trace holds the search call only, no printed report and no patch. -/
theorem C3_counterexample :
    resolveLocation dsOther.locations WATCH_SITE = none ∧
    Crawler.run envNoSite =
      ([Event.searchCalled theSearchCall], RunResult.uncaught PyExc.attributeError) := by
  decide

/-- C3 (amended): for every dataset whose locations contain no entry at the
watch site, the selection loop yields `None` rather than raising, and no patch
call is issued for the dataset; but instead of a per-item failure report, the
subsequent attribute access on `None` raises an uncaught `AttributeError`
(empty event trace, exception escapes the loop). -/
theorem C3_location_missing_aborts (env : Env) (d : Dataset)
    (h : resolveLocation d.locations WATCH_SITE = none) :
    processOne env d = ([], some PyExc.attributeError) := by
  simp [processOne, h]

/-- Witness for C3 at the concrete no-matching-site dataset. -/
theorem C3_witness :
    resolveLocation dsOther.locations WATCH_SITE = none ∧
    processOne envNoSite dsOther = ([], some PyExc.attributeError) :=
  ⟨by decide, C3_location_missing_aborts envNoSite dsOther (by decide)⟩

/-- C4: for every sequence of locations and every requested site, the
selection loop returns `some l` exactly when `l` matches the requested site
under string equality and every location before `l` in catalog order does
not - i.e. exactly the first match, order preserved, no weighting; when
nothing matches (including a candidate differing only in letter case, string
equality being case-sensitive) nothing is selected. -/
theorem C4_first_matching_location (ls : List Location) (site : String) (l : Location) :
    (resolveLocation ls site = some l ↔
      l.site = site ∧ ∃ p q, ls = p ++ l :: q ∧ ∀ x ∈ p, x.site ≠ site) ∧
    ((∀ x ∈ ls, x.site ≠ site) → resolveLocation ls site = none) ∧
    resolveLocation [Location.mk "ncsa" "/data/f1.fits"] "NCSA" = none :=
  ⟨resolveLocation_eq_some_iff ls site l, resolveLocation_eq_none ls site, by decide⟩

/-- Witness for C4: among a non-matching lower-case site, a first match and a
later match, exactly the first exact match is selected. -/
theorem C4_witness :
    resolveLocation
      [Location.mk "ncsa" "/a", Location.mk "NCSA" "/b", Location.mk "NCSA" "/c"] "NCSA"
      = some (Location.mk "NCSA" "/b") :=
  (C4_first_matching_location
      [Location.mk "ncsa" "/a", Location.mk "NCSA" "/b", Location.mk "NCSA" "/c"]
      "NCSA" (Location.mk "NCSA" "/b")).1.mpr
    ⟨rfl, [Location.mk "ncsa" "/a"], [Location.mk "NCSA" "/c"], rfl, by decide⟩

/-- Processing a single dataset never issues a catalog search. -/
theorem processOne_no_search (env : Env) (d : Dataset) :
    (processOne env d).1.filter isSearchEvent = [] := by
  simp only [processOne]
  cases h : resolveLocation d.locations WATCH_SITE with
  | none => simp
  | some loc =>
    cases hs : env.stat loc.resource with
    | error e => simp [hs]
    | ok n =>
      cases hp : env.patchResult d.path with
      | ok u => simp [hs, hp, isSearchEvent]
      | error e => simp [hs, hp, isSearchEvent]

/-- Processing a batch never issues a catalog search. -/
theorem processList_no_search (env : Env) (ds : List Dataset) :
    (processList env ds).1.filter isSearchEvent = [] := by
  induction ds with
  | nil => simp [processList]
  | cons d rest ih =>
    simp only [processList]
    cases hp : processOne env d with
    | mk evs exc =>
      have hevs : evs.filter isSearchEvent = [] := by
        have h := processOne_no_search env d
        rw [hp] at h
        exact h
      cases exc with
      | some e => simpa using hevs
      | none =>
        cases hq : processList env rest with
        | mk evs2 r =>
          have hevs2 : evs2.filter isSearchEvent = [] := by
            rw [hq] at ih
            exact ih
          simp [List.filter_append, hevs, hevs2]

/-- The search-error report never contains a search call either. -/
theorem reportSearchError_no_search (e : DcError) :
    (reportSearchError e).filter isSearchEvent = [] := by
  rcases e with ⟨msg, ty, ca, co⟩
  cases msg <;> cases ty <;> cases ca <;> simp [reportSearchError, isSearchEvent]

/-- Every run's trace begins with the one catalog search call. -/
theorem run_starts_with_search (env : Env) :
    ∃ evs, (Crawler.run env).1 = Event.searchCalled theSearchCall :: evs := by
  cases h : env.searchResult with
  | error e => exact ⟨reportSearchError e, by simp [Crawler.run, h]⟩
  | ok results =>
    cases hq : processList env results with
    | mk evs r =>
      cases r with
      | none => exact ⟨evs, by simp [Crawler.run, h, hq]⟩
      | some e => exact ⟨evs, by simp [Crawler.run, h, hq]⟩

/-- The `_run` wrapper adds no events beyond those of `run` itself. -/
theorem runStep_events (env : Env) (t : Nat) :
    (Crawler.runStep env t).1 = (Crawler.run env).1 := by
  simp only [Crawler.runStep]
  cases h : Crawler.run env with
  | mk evs r => cases r <;> simp

/-- On success, the head of a dataset's event trace is the patch call carrying
the constructed scan result. -/
theorem processOne_patch_payload (env : Env) (d : Dataset) (loc : Location) (size : Nat)
    (hloc : resolveLocation d.locations WATCH_SITE = some loc)
    (hstat : env.stat loc.resource = Except.ok size) :
    ∃ evs, (processOne env d).1 =
      Event.patchCalled d.path
        (mkScanResult size (get_cksum (env.cksumProc loc.resource)) env.now
          (get_metadata loc.resource)) d.versionId WATCH_SITE :: evs := by
  simp only [processOne, hloc, hstat]
  cases env.patchResult d.path <;> exact ⟨_, rfl⟩

/-- C5: the claim says the search is scoped to the configured watch site; the
call the code issues passes `site="all"` instead (crawler.py line 68), which
differs from `WATCH_SITE = "NCSA"`. -/
theorem C5_counterexample :
    theSearchCall.site = "all" ∧ WATCH_SITE = "NCSA" ∧ theSearchCall.site ≠ WATCH_SITE := by
  decide

/-- C5 (amended): every run issues exactly one catalog search, whose query is
the status predicate scanStatus = 'UNSCANNED', whose folder is the configured
watch path with version "current", whose site parameter is the literal "all"
rather than the configured watch site, and whose result count is bounded by a
maximum batch size of 1000. -/
theorem C5_single_search_per_run (env : Env) :
    (Crawler.run env).1.filter isSearchEvent = [Event.searchCalled theSearchCall] ∧
    theSearchCall.folder = WATCH_FOLDER ∧
    theSearchCall.version = "current" ∧
    theSearchCall.site = "all" ∧
    theSearchCall.query = "scanStatus = " ++ squote ++ "UNSCANNED" ++ squote ∧
    theSearchCall.maxNum = 1000 := by
  refine ⟨?_, rfl, rfl, rfl, rfl, rfl⟩
  cases h : env.searchResult with
  | error e =>
    have htr : (Crawler.run env).1 =
        Event.searchCalled theSearchCall :: reportSearchError e := by
      simp [Crawler.run, h]
    rw [htr, List.filter_cons]
    simp [isSearchEvent, reportSearchError_no_search e]
  | ok results =>
    cases hq : processList env results with
    | mk evs r =>
      have hevs := processList_no_search env results
      rw [hq] at hevs
      have htr : (Crawler.run env).1 = Event.searchCalled theSearchCall :: evs := by
        cases r <;> simp [Crawler.run, h, hq]
      rw [htr, List.filter_cons]
      simp [isSearchEvent, hevs]

/-- C6: for every successfully scanned dataset the patch payload handed to the
catalog holds exactly the resolved file's stat size (a Nat, hence
non-negative), the checksum string taken from the cksum output for the
resolved resource, the current UTC time formatted by the strftime pattern
ending in a Z suffix, and scanStatus "OK"; versionMetadata is attached only
when the metadata hook yields a truthy (non-empty) value, and the default
`get_metadata` returns `None`, so with it the field is never present. -/
theorem C6_patch_payload_contents (env : Env) (d : Dataset) (loc : Location) (size : Nat)
    (hloc : resolveLocation d.locations WATCH_SITE = some loc)
    (hstat : env.stat loc.resource = Except.ok size) :
    (∃ evs, (processOne env d).1 =
      Event.patchCalled d.path
        (mkScanResult size (get_cksum (env.cksumProc loc.resource)) env.now
          (get_metadata loc.resource)) d.versionId WATCH_SITE :: evs) ∧
    mkScanResult size (get_cksum (env.cksumProc loc.resource)) env.now
        (get_metadata loc.resource) =
      { size := size
      , checksum := String.mk (get_cksum (env.cksumProc loc.resource))
      , locationScanned := isoZ env.now
      , scanStatus := "OK"
      , versionMetadata := none } ∧
    (∃ s, isoZ env.now = s ++ "Z") ∧
    (∀ md, mdTruthy md = false →
      (mkScanResult size (get_cksum (env.cksumProc loc.resource)) env.now md).versionMetadata
        = none) ∧
    (∀ md m,
      (mkScanResult size (get_cksum (env.cksumProc loc.resource)) env.now md).versionMetadata
          = some m → md = some m ∧ m ≠ []) := by
  refine ⟨processOne_patch_payload env d loc size hloc hstat, rfl,
    ⟨toString env.now.year ++ "-" ++ pad2 env.now.month ++ "-" ++ pad2 env.now.day ++ "T"
      ++ pad2 env.now.hour ++ ":" ++ pad2 env.now.minute ++ ":" ++ pad2 env.now.second,
      rfl⟩, ?_, ?_⟩
  · intro md hmd
    simp [mkScanResult, hmd]
  · intro md m hm
    cases md with
    | none => simp [mkScanResult, mdTruthy] at hm
    | some l =>
      by_cases hl : l.isEmpty
      · simp [mkScanResult, mdTruthy, hl] at hm
      · simp only [mkScanResult, mdTruthy, hl, Bool.not_false, if_pos] at hm
        rw [Option.some.injEq] at hm
        subst hm
        exact ⟨rfl, fun hnil => hl (by simp [hnil])⟩

/-- Witness for C6 at the scenario dataset in the all-success environment. -/
theorem C6_witness :
    resolveLocation ds1.locations WATCH_SITE = some locF1 ∧
    envOk.stat locF1.resource = Except.ok 2048 ∧
    ((∃ evs, (processOne envOk ds1).1 =
      Event.patchCalled ds1.path
        (mkScanResult 2048 (get_cksum (envOk.cksumProc locF1.resource)) envOk.now
          (get_metadata locF1.resource)) ds1.versionId WATCH_SITE :: evs) ∧
    mkScanResult 2048 (get_cksum (envOk.cksumProc locF1.resource)) envOk.now
        (get_metadata locF1.resource) =
      { size := 2048
      , checksum := String.mk (get_cksum (envOk.cksumProc locF1.resource))
      , locationScanned := isoZ envOk.now
      , scanStatus := "OK"
      , versionMetadata := none } ∧
    (∃ s, isoZ envOk.now = s ++ "Z") ∧
    (∀ md, mdTruthy md = false →
      (mkScanResult 2048 (get_cksum (envOk.cksumProc locF1.resource)) envOk.now md).versionMetadata
        = none) ∧
    (∀ md m,
      (mkScanResult 2048 (get_cksum (envOk.cksumProc locF1.resource)) envOk.now md).versionMetadata
          = some m → md = some m ∧ m ≠ [])) :=
  ⟨by decide, rfl, C6_patch_payload_contents envOk ds1 locF1 2048 (by decide) rfl⟩

/-- C7: the claim says the next fetch always fires a fixed 5 seconds after
the time the previous run was scheduled to start. In the code `sched.enter(5,
...)` is only reached after `self.run()` has returned, so the delay is
measured from the completion of the run body: a run scheduled at 100 whose
body takes 7 seconds schedules the next run at 112, not at 105. -/
theorem C7_counterexample :
    nextRunTime envSlowRun 100 = some 112 ∧
    nextRunTime envSlowRun 100 ≠ some (100 + RERUN_SECONDS) := by decide

/-- C7 (amended): after a cycle whose run body returns normally, the next
fetch is scheduled RERUN_SECONDS = 5 seconds after the completion of the run
body (start time plus run duration plus 5); when the run body exits the
process or raises, `sched.enter` is never reached and nothing is
scheduled. -/
theorem C7_reschedule_measured_from_completion (env : Env) (t : Nat) :
    ((Crawler.run env).2 = RunResult.done →
      nextRunTime env t = some (t + env.runDuration + RERUN_SECONDS)) ∧
    ((Crawler.run env).2 ≠ RunResult.done → nextRunTime env t = none) := by
  cases hr : Crawler.run env with
  | mk evs r =>
    constructor
    · intro h
      have h' : r = RunResult.done := h
      subst h'
      simp [nextRunTime, Crawler.runStep, hr]
    · intro h
      have h' : r ≠ RunResult.done := h
      cases r with
      | done => exact absurd rfl h'
      | sysExit c => simp [nextRunTime, Crawler.runStep, hr]
      | uncaught e => simp [nextRunTime, Crawler.runStep, hr]

/-- Witness for C7 at the 7-second run started at time 100. -/
theorem C7_witness :
    (Crawler.run envSlowRun).2 = RunResult.done ∧
    nextRunTime envSlowRun 100 = some (100 + envSlowRun.runDuration + RERUN_SECONDS) :=
  ⟨by decide, (C7_reschedule_measured_from_completion envSlowRun 100).1 (by decide)⟩

/-- C8: the claim (spec section 4.1) is that a missing or unreadable path
makes the checksum/size computation fail with an IOError which is handled as a
dataset-scoped failure that never aborts the scheduler loop. The code has no
such handling: `get_cksum` reads and then discards the subprocess exit status
(the line-50 comment, Handle error here or raise exception/error, marks the
intended but missing handling, so it returns the empty checksum instead of
raising), and the `OSError` raised by `os.stat` on a missing path propagates
uncaught, aborting the whole run, so nothing is rescheduled. Evaluated at the
batch whose second file is missing: the run dies and no next cycle exists. -/
theorem C8_stat_failure_aborts_scheduler :
    (Crawler.run envStatFailB).2 = RunResult.uncaught (PyExc.osError "/data/b.fits") ∧
    nextRunTime envStatFailB 0 = none ∧
    get_cksum (1, []) = [] := by decide

/-- C9: `get_cksum` never raises: its result is independent of the subprocess
exit code, empty command output yields the empty checksum, a space-free first
field followed by a space is returned exactly, and a dataset whose file stats
fine but whose contents cannot be read (cksum exits non-zero with empty
stdout) still produces a patch call whose payload has scanStatus "OK" and an
empty checksum string. -/
theorem C9_cksum_exit_code_ignored (env : Env) (d : Dataset) (loc : Location)
    (size : Nat) (ec ec2 : Int) (out tok rest : List Char)
    (hloc : resolveLocation d.locations WATCH_SITE = some loc)
    (hstat : env.stat loc.resource = Except.ok size)
    (hproc : env.cksumProc loc.resource = (ec, []))
    (htok : ' ' ∉ tok) :
    get_cksum (ec, out) = get_cksum (ec2, out) ∧
    get_cksum (ec, []) = [] ∧
    get_cksum (ec, tok ++ ' ' :: rest) = tok ∧
    (∃ evs, (processOne env d).1 =
      Event.patchCalled d.path
        { size := size, checksum := "", locationScanned := isoZ env.now,
          scanStatus := "OK", versionMetadata := none }
        d.versionId WATCH_SITE :: evs) := by
  refine ⟨rfl, rfl, ?_, ?_⟩
  · simp [get_cksum, pySplitSpace_token tok rest htok]
  · have h := processOne_patch_payload env d loc size hloc hstat
    rw [hproc] at h
    exact h

/-- Witness for C9 at the environment whose cksum subprocess exits with
status 1 and empty output. -/
theorem C9_witness :
    resolveLocation ds1.locations WATCH_SITE = some locF1 ∧
    envCksumFail.stat locF1.resource = Except.ok 2048 ∧
    envCksumFail.cksumProc locF1.resource = (1, []) ∧
    ' ' ∉ "abc123".data ∧
    (get_cksum (1, "x y".data) = get_cksum (0, "x y".data) ∧
     get_cksum (1, []) = [] ∧
     get_cksum (1, "abc123".data ++ ' ' :: "2048".data) = "abc123".data ∧
     (∃ evs, (processOne envCksumFail ds1).1 =
       Event.patchCalled ds1.path
         { size := 2048, checksum := "", locationScanned := isoZ envCksumFail.now,
           scanStatus := "OK", versionMetadata := none }
         ds1.versionId WATCH_SITE :: evs)) :=
  ⟨by decide, rfl, rfl, by decide,
   C9_cksum_exit_code_ignored envCksumFail ds1 locF1 2048 1 0
     "x y".data "abc123".data "2048".data (by decide) rfl rfl (by decide)⟩

/-- C10: the first scan cycle executes during construction: `__init__` calls
`_run`, whose trace is exactly one full run's trace and begins with the
catalog search; when that run returns normally, exactly one follow-up `_run`
is enqueued (the recurring schedule); `start` merely services already-enqueued
timer events and, on an empty queue, performs no run at all. -/
theorem C10_first_run_during_construction (env : Env) (envs : Nat → Env)
    (t0 fuel : Nat) :
    (Crawler.init env t0).1 = (Crawler.run env).1 ∧
    (Crawler.init env t0).1.head? = some (Event.searchCalled theSearchCall) ∧
    ((Crawler.run env).2 = RunResult.done →
      (Crawler.init env t0).2.1 = [t0 + env.runDuration + RERUN_SECONDS]) ∧
    Crawler.start envs fuel [] = [] := by
  refine ⟨runStep_events env t0, ?_, ?_, ?_⟩
  · rcases run_starts_with_search env with ⟨evs, hevs⟩
    have h1 : (Crawler.init env t0).1 = (Crawler.run env).1 := runStep_events env t0
    rw [h1, hevs]
    rfl
  · intro h
    cases hr : Crawler.run env with
    | mk evs r =>
      rw [hr] at h
      simp only at h
      subst h
      simp [Crawler.init, Crawler.runStep, hr]
  · cases fuel <;> rfl

/-- Witness for C10 at the all-success environment started at time 0. -/
theorem C10_witness :
    ((Crawler.init envOk 0).1 = (Crawler.run envOk).1 ∧
     (Crawler.init envOk 0).1.head? = some (Event.searchCalled theSearchCall) ∧
     ((Crawler.run envOk).2 = RunResult.done →
       (Crawler.init envOk 0).2.1 = [0 + envOk.runDuration + RERUN_SECONDS]) ∧
     Crawler.start (fun _ => envOk) 2 [] = []) ∧
    (Crawler.init envOk 0).2.1 = [0 + envOk.runDuration + RERUN_SECONDS] :=
  ⟨C10_first_run_during_construction envOk (fun _ => envOk) 0 2,
   (C10_first_run_during_construction envOk (fun _ => envOk) 0 2).2.2.1 (by decide)⟩
